import Mathlib

/-!
# Verification of the CoAct plan/execute/check/replan agent

Shallow embedding of the CoAct repository (src/test_plan.py,
src/agent/agent.py, src/agent/prompts/prompt_constructor.py,
src/evaluation_harness/evaluators.py) and proofs about the spec's claims.

Conventions:
* Python lists become `List`, dictionaries with fixed keys become structures,
  `None` becomes `Option.none`.
* Machine integers of the source are small argparse integers; they are
  embedded as `Nat` (thresholds, step counts are non-negative in every use).
* Python's exact float comparison `(len(trajectory) - 1) / 2 >= max_steps`
  is embedded as the equivalent exact rational comparison.
* The helpers of `browser_env/actions.py` (`ActionTypes`, `Action`,
  `create_none_action`, `create_stop_action`, `create_id_based_action`,
  `is_equivalent`) are not part of the repository snapshot; they are
  modelled from the spec where indicated.
-/

namespace CoAct

/-! ## Python list/string helpers -/

/-- Python slice `xs[1::2]`: the elements at odd indices. -/
def pyOdds {α : Type} : List α → List α
  | [] => []
  | [_] => []
  | _ :: b :: rest => b :: pyOdds rest

/-- Python slice `xs[-k:]`.  For `k = 0` Python reads `xs[-0:] = xs[0:]`,
the whole list; for `k ≥ 1` it is the suffix of length `min k xs.length`. -/
def pyLastK {α : Type} (k : Nat) (xs : List α) : List α :=
  if k = 0 then xs else xs.drop (xs.length - k)

/-- The characters Python's `str.strip()` removes. -/
def pyIsSpace (c : Char) : Bool :=
  c = ' ' || c = '\t' || c = '\n' || c = '\r' || c = '\x0b' || c = '\x0c'

/-- Python `str.strip()` on a character list. -/
def pyStripChars (cs : List Char) : List Char :=
  ((cs.dropWhile pyIsSpace).reverse.dropWhile pyIsSpace).reverse

/-- Python `str.strip()`. -/
def pyStrip (s : String) : String :=
  ⟨pyStripChars s.data⟩

/-- Python `str.lower()` (restricted to ASCII, which is all the sources use). -/
def pyLower (s : String) : String :=
  ⟨s.data.map Char.toLower⟩

/-- Whether `pat` occurs as a contiguous substring of `cs`
(Python's `pat in s`). -/
def containsSub (pat : List Char) : List Char → Bool
  | [] => pat.isEmpty
  | c :: t => pat.isPrefixOf (c :: t) || containsSub pat t

/-! ## Data model: actions, states, trajectories

Modelled from the spec: `browser_env/actions.py` is not in the repository
snapshot.  §3 of the spec describes `Action` as a tagged variant over
{click, type, hover, press-key, scroll, new-tab, switch-tab, close-tab,
navigate-url, go-back, go-forward, stop, none} carrying the
action-specific parameters (element id, text content, key combo,
direction, url, answer) plus the raw text the model produced. -/

/-- Modelled from the spec: the closed tag set of `browser_env.ActionTypes`. -/
inductive ActionTypes where
  | NONE
  | CLICK
  | TYPE
  | HOVER
  | KEY_PRESS
  | SCROLL
  | NEW_TAB
  | PAGE_FOCUS
  | PAGE_CLOSE
  | GOTO_URL
  | GO_BACK
  | GO_FORWARD
  | STOP
  deriving DecidableEq, Repr

/-- Modelled from the spec: a `browser_env.Action` record.  Unused parameter
fields default to the empty string, as the dict-based source does. -/
structure Action where
  action_type : ActionTypes := ActionTypes.NONE
  element_id : String := ""
  text : String := ""
  key_comb : String := ""
  direction : String := ""
  url : String := ""
  page_number : Nat := 0
  answer : String := ""
  raw_prediction : String := ""
  deriving DecidableEq, Repr

/-- Modelled from the spec: `create_none_action`, the sentinel for
unparseable model output. -/
def create_none_action : Action := {}

/-- Modelled from the spec: `create_stop_action(answer)` builds a STOP
action carrying the answer payload. -/
def create_stop_action (answer : String) : Action :=
  { action_type := ActionTypes.STOP, answer := answer }

/-- Modelled from the spec: `is_equivalent` from `browser_env.actions`:
same action-type tag and same normalized parameters (element id, content,
direction, etc.); STOP actions are equivalent only if their answer payload
matches. -/
def is_equivalent (a b : Action) : Bool :=
  a.action_type = b.action_type &&
    match a.action_type with
    | ActionTypes.CLICK => a.element_id = b.element_id
    | ActionTypes.HOVER => a.element_id = b.element_id
    | ActionTypes.TYPE => a.element_id = b.element_id && a.text = b.text
    | ActionTypes.KEY_PRESS => a.key_comb = b.key_comb
    | ActionTypes.SCROLL => a.direction = b.direction
    | ActionTypes.GOTO_URL => a.url = b.url
    | ActionTypes.PAGE_FOCUS => a.page_number = b.page_number
    | ActionTypes.STOP => a.answer = b.answer
    | _ => true

/-- A page observation paired with environment metadata
(`browser_env.utils.StateInfo`, reduced to the fields the core loop reads). -/
structure StateInfo where
  observation : String := ""
  url : String := ""
  deriving DecidableEq, Repr

/-- One element of a `Trajectory`: Python stores states and actions in a
single heterogeneous list. -/
inductive TrajEntry where
  | state (s : StateInfo)
  | action (a : Action)
  deriving DecidableEq, Repr

/-- The actions of a trajectory: the source casts `trajectory[1::2]` to
`list[Action]`.  On the trajectories the program builds, every odd-index
entry is an action, so the cast is embedded as extracting the actions
among the odd-index entries. -/
def traj_actions (trajectory : List TrajEntry) : List Action :=
  (pyOdds trajectory).filterMap fun e =>
    match e with
    | TrajEntry.action a => some a
    | TrajEntry.state _ => none

/-- Helper for `TrajectoryWF`: entries alternate, starting with a state
when `expectState` is `true`. -/
def alternatingFrom (expectState : Bool) : List TrajEntry → Bool
  | [] => true
  | TrajEntry.state _ :: rest => expectState && alternatingFrom (!expectState) rest
  | TrajEntry.action _ :: rest => !expectState && alternatingFrom (!expectState) rest

/-- Parity well-formedness of a trajectory (spec §3): odd length, a state
at every even index, an action at every odd index. -/
def TrajectoryWF (t : List TrajEntry) : Prop :=
  t.length % 2 = 1 ∧ alternatingFrom true t = true

instance : DecidablePred TrajectoryWF := fun t => by
  unfold TrajectoryWF
  infer_instance

/-! ## The early-stop monitor (`src/test_plan.py`, `early_stop`) -/

/-- `early_stop(trajectory, max_steps, thresholds)` from `src/test_plan.py`
lines 150-203.  The float comparison `(len(trajectory) - 1) / 2 >= max_steps`
is exact and, for a natural `max_steps`, equals `len ≥ 2 * max_steps + 1`.
`thresholds` is passed as its two entries `parsing_failure` and
`repeating_action`; the source's local variables `last_k_actions` and
`action_seq` are inlined. -/
def early_stop (trajectory : List TrajEntry) (max_steps : Nat)
    (parsing_failure repeating_action : Nat) : Bool × String :=
  -- reach the max step
  if 2 * max_steps + 1 ≤ trajectory.length then
    (true, "Reach max steps " ++ toString max_steps)
  -- Case: parsing failure for k times
  else if parsing_failure ≤ (pyLastK parsing_failure (traj_actions trajectory)).length ∧
      (pyLastK parsing_failure (traj_actions trajectory)).all
        (fun action => action.action_type = ActionTypes.NONE) = true then
    (true, "Failed to parse actions for " ++ toString parsing_failure ++ " times")
  else
    -- Case: same action for k times
    match (traj_actions trajectory).getLast? with
    | none => (false, "")
    | some last_action =>
      if last_action.action_type ≠ ActionTypes.TYPE then
        if repeating_action ≤ (pyLastK repeating_action (traj_actions trajectory)).length ∧
            (pyLastK repeating_action (traj_actions trajectory)).all
              (fun action => is_equivalent action last_action) = true then
          (true, "Same action for " ++ toString repeating_action ++ " times")
        else
          (false, "")
      else
        -- check the action sequence
        if repeating_action ≤
            (traj_actions trajectory).countP
              (fun action => is_equivalent action last_action) then
          (true, "Same typing action for " ++ toString repeating_action ++ " times")
        else
          (false, "")

example :
    early_stop [TrajEntry.state {}] 30 3 3 = (false, "") := by decide

example :
    early_stop [TrajEntry.state {}, TrajEntry.action create_none_action,
      TrajEntry.state {}, TrajEntry.action create_none_action,
      TrajEntry.state {}, TrajEntry.action create_none_action,
      TrajEntry.state {}] 30 3 3 =
      (true, "Failed to parse actions for 3 times") := by decide

/-! ## Helper lemmas about the Python slice `[-k:]` -/

theorem pyLastK_pos {α : Type} (k : Nat) (hk : 1 ≤ k) (xs : List α) :
    pyLastK k xs = xs.rtake k := by
  unfold pyLastK List.rtake
  rw [if_neg (by omega)]

theorem length_rtake {α : Type} (xs : List α) (k : Nat) :
    (xs.rtake k).length = min k xs.length := by
  unfold List.rtake
  rw [List.length_drop]
  omega

/-- Concrete actions and states used by the witnesses and counterexamples. -/
def stateS : StateInfo := {}

def clickA : Action := { action_type := ActionTypes.CLICK, element_id := "42" }

def clickB : Action := { action_type := ActionTypes.CLICK, element_id := "43" }

def typeX : Action := { action_type := ActionTypes.TYPE, element_id := "7", text := "x" }

/-- Build the well-formed trajectory `[state, a₁, state, a₂, state, …]`
produced by `k` completed steps. -/
def trajOf (acts : List Action) : List TrajEntry :=
  TrajEntry.state stateS ::
    acts.foldr (fun a rest => TrajEntry.action a :: TrajEntry.state stateS :: rest) []

example : traj_actions (trajOf [clickA, clickB]) = [clickA, clickB] := by decide

/-! ## C6: the step-count rule of the early-stop monitor -/

/-- C6: for every trajectory with `(len(trajectory) - 1) / 2 >= max_steps`
(stated as the exact rational comparison the Python float arithmetic
computes), `early_stop` returns `(True, "Reach max steps {max_steps}")`
regardless of the content of the actions and of the thresholds. -/
theorem early_stop_max_steps (t : List TrajEntry) (max_steps kp kr : Nat)
    (h : (max_steps : ℚ) ≤ ((t.length : ℚ) - 1) / 2) :
    early_stop t max_steps kp kr =
      (true, "Reach max steps " ++ toString max_steps) := by
  have hn : 2 * max_steps + 1 ≤ t.length := by
    rw [le_div_iff₀ (by norm_num : (0 : ℚ) < 2)] at h
    have h2 : ((2 * max_steps + 1 : Nat) : ℚ) ≤ (t.length : ℚ) := by
      push_cast
      linarith
    exact_mod_cast h2
  unfold early_stop
  rw [if_pos hn]

/-- Five completed steps. -/
def trajFive : List TrajEntry := trajOf [clickA, clickB, clickA, clickB, clickA]

/-- Witness for C6: `max_steps = 5` and a trajectory encoding 5 completed
steps (11 entries) stops with reason `"Reach max steps 5"`. -/
theorem early_stop_max_steps_witness :
    (5 : ℚ) ≤ ((trajFive.length : ℚ) - 1) / 2 ∧
      early_stop trajFive 5 3 3 = (true, "Reach max steps 5") := by
  have hl : trajFive.length = 11 := by decide
  refine ⟨by rw [hl]; norm_num, ?_⟩
  have := early_stop_max_steps trajFive 5 3 3 (by rw [hl]; norm_num)
  simpa using this

/-- A step count strictly below the budget, stated as the exact rational
comparison, rules out the step-count branch of `early_stop`. -/
theorem below_max_of_ratio {L m : Nat} (hm : ((L : ℚ) - 1) / 2 < m) :
    ¬ (2 * m + 1 ≤ L) := by
  intro hle
  rw [div_lt_iff₀ (by norm_num : (0 : ℚ) < 2)] at hm
  have h2 : ((2 * m + 1 : Nat) : ℚ) ≤ (L : ℚ) := by exact_mod_cast hle
  push_cast at h2 hm
  linarith

/-! ## C4: the repetition rule of the early-stop monitor -/

/-- Three consecutive "none" actions. -/
def trajThreeNone : List TrajEntry :=
  trajOf [create_none_action, create_none_action, create_none_action]

/-- Counterexample to C4 as stated: with `parsing_failure_th = 3` and
`repeating_action_failure_th = 5`, a trajectory of three "none" actions is
below the step budget and its most recent action is not a type action, and
fewer than 5 actions exist — so the claimed "stops exactly when the last 5
actions are all equivalent to the most recent one (requiring at least 5
actions to exist)" has a false right-hand side — yet `early_stop` stops,
because the parsing-failure rule is checked first. -/
theorem repetition_rule_cex :
    ((trajThreeNone.length : ℚ) - 1) / 2 < 100 ∧
    (traj_actions trajThreeNone).getLast? = some create_none_action ∧
    create_none_action.action_type ≠ ActionTypes.TYPE ∧
    (early_stop trajThreeNone 100 3 5).1 = true ∧
    ¬ 5 ≤ (traj_actions trajThreeNone).length := by
  have hl : trajThreeNone.length = 7 := by decide
  exact ⟨by rw [hl]; norm_num, by decide, by decide, by decide, by decide⟩

/-- C4 (amended): add to the claim that the thresholds are positive and
that the parsing-failure rule does not fire (the counterexample shows the
parsing-failure rule can return stop = True while the claimed repetition
condition is false).  Then: below the step budget, with a most recent
action `last`, `early_stop` stops exactly when the last
`repeating_action_failure_th` actions all are equivalent to `last`
(requiring at least that many actions) if `last` is not a type action, and
exactly when the equivalent actions in the entire history reach the
threshold if `last` is a type action. -/
theorem repetition_rule_iff (t : List TrajEntry) (m kp kr : Nat)
    (hm : ((t.length : ℚ) - 1) / 2 < m)
    (hkr : 1 ≤ kr)
    (hparse : ¬ (kp ≤ (traj_actions t).length ∧
        ∀ a ∈ (traj_actions t).rtake kp, a.action_type = ActionTypes.NONE))
    (last : Action) (hlast : (traj_actions t).getLast? = some last) :
    (last.action_type ≠ ActionTypes.TYPE →
      ((early_stop t m kp kr).1 = true ↔
        kr ≤ (traj_actions t).length ∧
          ∀ a ∈ (traj_actions t).rtake kr, is_equivalent a last = true)) ∧
    (last.action_type = ActionTypes.TYPE →
      ((early_stop t m kp kr).1 = true ↔
        kr ≤ (traj_actions t).countP (fun action => is_equivalent action last))) := by
  have hlenmax : ¬ (2 * m + 1 ≤ t.length) := below_max_of_ratio hm
  have hkp : 1 ≤ kp := by
    rcases Nat.eq_zero_or_pos kp with h0 | h1
    · subst h0
      exact absurd ⟨Nat.zero_le _, by simp [List.rtake_zero]⟩ hparse
    · exact h1
  have hpc : ¬ (kp ≤ (pyLastK kp (traj_actions t)).length ∧
      (pyLastK kp (traj_actions t)).all
        (fun action => action.action_type = ActionTypes.NONE) = true) := by
    rw [pyLastK_pos kp hkp]
    rintro ⟨h1, h2⟩
    apply hparse
    rw [length_rtake] at h1
    refine ⟨(Nat.le_min.mp h1).2, fun a ha => ?_⟩
    simpa using List.all_eq_true.mp h2 a ha
  have hCS : (kr ≤ (pyLastK kr (traj_actions t)).length ∧
      (pyLastK kr (traj_actions t)).all
        (fun action => is_equivalent action last) = true) ↔
      (kr ≤ (traj_actions t).length ∧
        ∀ a ∈ (traj_actions t).rtake kr, is_equivalent a last = true) := by
    rw [pyLastK_pos kr hkr, length_rtake, List.all_eq_true]
    constructor
    · rintro ⟨h1, h2⟩
      exact ⟨(Nat.le_min.mp h1).2, h2⟩
    · rintro ⟨h1, h2⟩
      exact ⟨Nat.le_min.mpr ⟨le_refl kr, h1⟩, h2⟩
  unfold early_stop
  rw [if_neg hlenmax, if_neg hpc]
  simp only [hlast]
  constructor
  · intro hNT
    rw [if_pos hNT]
    by_cases hC : kr ≤ (pyLastK kr (traj_actions t)).length ∧
        (pyLastK kr (traj_actions t)).all
          (fun action => is_equivalent action last) = true
    · rw [if_pos hC]
      exact ⟨fun _ => hCS.mp hC, fun _ => rfl⟩
    · rw [if_neg hC]
      exact ⟨fun h => absurd h (by decide), fun hS => absurd (hCS.mpr hS) hC⟩
  · intro hT
    rw [if_neg (fun h => h hT)]
    by_cases hC : kr ≤ (traj_actions t).countP
        (fun action => is_equivalent action last)
    · rw [if_pos hC]
      exact ⟨fun _ => hC, fun _ => rfl⟩
    · rw [if_neg hC]
      exact ⟨fun h => absurd h (by decide), fun hS => absurd hS hC⟩

/-- Three identical clicks. -/
def trajThreeClicks : List TrajEntry := trajOf [clickA, clickA, clickA]

/-- Witness for C4 (amended) at three identical clicks with both
thresholds 3. -/
theorem repetition_rule_iff_witness :
    (((trajThreeClicks.length : ℚ) - 1) / 2 < 100) ∧
    (1 ≤ 3) ∧
    (¬ (3 ≤ (traj_actions trajThreeClicks).length ∧
        ∀ a ∈ (traj_actions trajThreeClicks).rtake 3,
          a.action_type = ActionTypes.NONE)) ∧
    (traj_actions trajThreeClicks).getLast? = some clickA ∧
    ((clickA.action_type ≠ ActionTypes.TYPE →
      ((early_stop trajThreeClicks 100 3 3).1 = true ↔
        3 ≤ (traj_actions trajThreeClicks).length ∧
          ∀ a ∈ (traj_actions trajThreeClicks).rtake 3,
            is_equivalent a clickA = true)) ∧
     (clickA.action_type = ActionTypes.TYPE →
      ((early_stop trajThreeClicks 100 3 3).1 = true ↔
        3 ≤ (traj_actions trajThreeClicks).countP
          (fun action => is_equivalent action clickA)))) := by
  have hl : trajThreeClicks.length = 7 := by decide
  exact ⟨by rw [hl]; norm_num, by norm_num, by decide, by decide,
    repetition_rule_iff trajThreeClicks 100 3 3 (by rw [hl]; norm_num)
      (by norm_num) (by decide) clickA (by decide)⟩

/-! ## C5: the parse-failure rule of the early-stop monitor -/

/-- Two identical type actions followed by three "none" sentinels: all of
the last 3 actions are "none". -/
def trajTypeStallOrig : List TrajEntry :=
  trajOf [typeX, typeX, create_none_action, create_none_action, create_none_action]

/-- The same trajectory with the most recent "none" replaced by the valid
type action — "changing one of the last 3 to a valid action". -/
def trajTypeStallMod : List TrajEntry :=
  trajOf [typeX, typeX, create_none_action, create_none_action, typeX]

/-- Counterexample to C5's second half as stated: starting from a
trajectory whose last 3 actions are all "none" and replacing one of them
(the most recent) by a valid action, with both thresholds at their default
3 and the step count below the budget, `early_stop` still stops — the
repetition rule fires on the type action — where the claim requires
stop = False. -/
theorem parse_failure_rule_cex :
    (∀ a ∈ (traj_actions trajTypeStallOrig).rtake 3,
      a.action_type = ActionTypes.NONE) ∧
    trajTypeStallMod = trajTypeStallOrig.set 9 (TrajEntry.action typeX) ∧
    ((trajTypeStallMod.length : ℚ) - 1) / 2 < 100 ∧
    3 ≤ (traj_actions trajTypeStallMod).length ∧
    (∃ a ∈ (traj_actions trajTypeStallMod).rtake 3,
      a.action_type ≠ ActionTypes.NONE) ∧
    (early_stop trajTypeStallMod 100 3 3).1 = true := by
  have hl : trajTypeStallMod.length = 11 := by decide
  exact ⟨by decide, by decide, by rw [hl]; norm_num, by decide, by decide,
    by decide⟩

/-- C5 (amended): for a positive threshold `kp = parsing_failure_th`, a
trajectory below the step budget containing at least `kp` actions:
(1) if the last `kp` actions are all the "none" sentinel, `early_stop`
stops with the parsing-failure reason naming `kp`; (2) if one of the last
`kp` actions is a valid (non-none) action and — the amendment forced by the
counterexample — the repetition rule does not fire either, `early_stop`
returns stop = False. -/
theorem parse_failure_rule (t : List TrajEntry) (m kp kr : Nat)
    (hm : ((t.length : ℚ) - 1) / 2 < m)
    (hkp : 1 ≤ kp)
    (hlen : kp ≤ (traj_actions t).length) :
    ((∀ a ∈ (traj_actions t).rtake kp, a.action_type = ActionTypes.NONE) →
      early_stop t m kp kr =
        (true, "Failed to parse actions for " ++ toString kp ++ " times")) ∧
    ((∃ a ∈ (traj_actions t).rtake kp, a.action_type ≠ ActionTypes.NONE) →
      (∀ last, (traj_actions t).getLast? = some last →
        (last.action_type ≠ ActionTypes.TYPE →
          ¬ (kr ≤ (traj_actions t).length ∧
              ∀ a ∈ (traj_actions t).rtake kr, is_equivalent a last = true)) ∧
        (last.action_type = ActionTypes.TYPE →
          ¬ kr ≤ (traj_actions t).countP
              (fun action => is_equivalent action last))) →
      (early_stop t m kp kr).1 = false) := by
  have hlenmax : ¬ (2 * m + 1 ≤ t.length) := below_max_of_ratio hm
  constructor
  · intro hall
    have hpc : kp ≤ (pyLastK kp (traj_actions t)).length ∧
        (pyLastK kp (traj_actions t)).all
          (fun action => action.action_type = ActionTypes.NONE) = true := by
      rw [pyLastK_pos kp hkp, length_rtake]
      refine ⟨Nat.le_min.mpr ⟨le_refl kp, hlen⟩, ?_⟩
      exact List.all_eq_true.mpr (fun a ha => by simpa using hall a ha)
    unfold early_stop
    rw [if_neg hlenmax, if_pos hpc]
  · intro hex hnofire
    have hpc : ¬ (kp ≤ (pyLastK kp (traj_actions t)).length ∧
        (pyLastK kp (traj_actions t)).all
          (fun action => action.action_type = ActionTypes.NONE) = true) := by
      rw [pyLastK_pos kp hkp]
      rintro ⟨h1, h2⟩
      obtain ⟨a, ha, hna⟩ := hex
      exact hna (by simpa using List.all_eq_true.mp h2 a ha)
    have hne : traj_actions t ≠ [] := by
      intro h0
      rw [h0] at hlen
      simp at hlen
      omega
    obtain ⟨last, hlast⟩ :=
      Option.isSome_iff_exists.mp (List.getLast?_isSome.mpr hne)
    have hnf := hnofire last hlast
    unfold early_stop
    rw [if_neg hlenmax, if_neg hpc]
    simp only [hlast]
    by_cases hT : last.action_type = ActionTypes.TYPE
    · rw [if_neg (fun h => h hT), if_neg (hnf.2 hT)]
    · rw [if_pos hT]
      have hC : ¬ (kr ≤ (pyLastK kr (traj_actions t)).length ∧
          (pyLastK kr (traj_actions t)).all
            (fun action => is_equivalent action last) = true) := by
        rintro ⟨h1, h2⟩
        rcases Nat.eq_zero_or_pos kr with h0 | h1k
        · subst h0
          exact (hnf.1 hT) ⟨Nat.zero_le _, by simp [List.rtake_zero]⟩
        · rw [pyLastK_pos kr h1k] at h1 h2
          apply hnf.1 hT
          rw [length_rtake] at h1
          exact ⟨(Nat.le_min.mp h1).2,
            fun a ha => List.all_eq_true.mp h2 a ha⟩
      rw [if_neg hC]

/-- A valid click among the last three actions, otherwise "none"s, and
no repetition: the amended C5's second half applies. -/
def trajMixed : List TrajEntry :=
  trajOf [create_none_action, clickA, create_none_action]

/-- Witness for C5 (amended): part (1) at three "none" actions, part (2)
at a mixed last-3 window, both with thresholds 3 and `max_steps = 100`. -/
theorem parse_failure_rule_witness :
    (((trajThreeNone.length : ℚ) - 1) / 2 < 100 ∧
      3 ≤ (traj_actions trajThreeNone).length ∧
      early_stop trajThreeNone 100 3 3 =
        (true, "Failed to parse actions for 3 times")) ∧
    (((trajMixed.length : ℚ) - 1) / 2 < 100 ∧
      3 ≤ (traj_actions trajMixed).length ∧
      (early_stop trajMixed 100 3 3).1 = false) := by
  have h7 : trajThreeNone.length = 7 := by decide
  have h7m : trajMixed.length = 7 := by decide
  constructor
  · refine ⟨by rw [h7]; norm_num, by decide, ?_⟩
    have := (parse_failure_rule trajThreeNone 100 3 3 (by rw [h7]; norm_num)
      (by norm_num) (by decide)).1 (by decide)
    simpa using this
  · refine ⟨by rw [h7m]; norm_num, by decide, ?_⟩
    refine (parse_failure_rule trajMixed 100 3 3 (by rw [h7m]; norm_num)
      (by norm_num) (by decide)).2 (by decide) ?_
    intro l hl
    have h0 : (traj_actions trajMixed).getLast? = some create_none_action := by
      decide
    rw [h0] at hl
    have he := Option.some.inj hl
    subst he
    exact ⟨fun _ => by decide, fun h => absurd h (by decide)⟩

/-! ## The evaluation harness (`src/evaluation_harness/evaluators.py`)

Scores are embedded as rationals: every float the harness multiplies is
either a 0/1-valued criterion score or an LLM-judged score, and the
products taken are exact. -/

/-- The quote-stripping half of `clean_answer`: `answer[1:-1]` when the
string starts and ends with a single quote, else when it starts and ends
with a double quote. -/
def py_strip_quotes (cs : List Char) : List Char :=
  if ['\''].isPrefixOf cs ∧ ['\''].isSuffixOf cs then cs.tail.dropLast
  else if ['"'].isPrefixOf cs ∧ ['"'].isSuffixOf cs then cs.tail.dropLast
  else cs

/-- `StringEvaluator.clean_answer` (evaluators.py lines 76-83): strip one
matching pair of surrounding single or double quotes (`answer[1:-1]`),
then lowercase. -/
def clean_answer (answer : String) : String :=
  ⟨(py_strip_quotes answer.data).map Char.toLower⟩

/-- `StringEvaluator.exact_match` (evaluators.py lines 85-91). -/
def exact_match (ref pred : String) : ℚ :=
  if clean_answer pred = clean_answer ref then 1 else 0

/-- `StringEvaluator.must_include` (evaluators.py lines 93-104).  nltk's
`word_tokenize` is an external collaborator and is passed as a parameter. -/
def must_include (tokenize : String → List String) (ref pred : String) : ℚ :=
  if (tokenize (clean_answer ref)).length = 1 then
    if clean_answer ref ∈ tokenize (clean_answer pred) then 1 else 0
  else
    if containsSub (clean_answer ref).data (clean_answer pred).data then 1 else 0

/-- One entry of the config's `eval.reference_answers` mapping, as matched
by `StringEvaluator.__call__`. -/
inductive RefCriterion where
  | exact (value : String)
  | must_inc (values : List String)
  | fuzzy (values : List String)
  deriving DecidableEq, Repr

/-- External collaborators of the string evaluator: nltk tokenization and
the LLM fuzzy judge (`llm_fuzzy_match(pred, ref, intent)`). -/
structure StringEvalEnv where
  tokenize : String → List String
  llm_fuzzy_match : String → String → String → ℚ

/-- The body of the `for approach, value in reference_answers.items()`
loop of `StringEvaluator.__call__`: multiply `score` through one
criterion's matches. -/
def criterion_step (env : StringEvalEnv) (intent pred : String) (score : ℚ) :
    RefCriterion → ℚ
  | RefCriterion.exact v => score * exact_match v pred
  | RefCriterion.must_inc vs =>
    vs.foldl (fun s mv => s * must_include env.tokenize mv pred) score
  | RefCriterion.fuzzy vs =>
    vs.foldl (fun s r => s * env.llm_fuzzy_match pred r intent) score

/-- `StringEvaluator.__call__` (evaluators.py lines 111-140): the final
answer is cleaned once into `pred`, then `score` starts at 1.0 and is
multiplied through every criterion. -/
def string_evaluator_score (env : StringEvalEnv) (criteria : List RefCriterion)
    (intent answer : String) : ℚ :=
  criteria.foldl (criterion_step env intent (clean_answer answer)) 1

/-- `EvaluatorComb.__call__` (evaluators.py lines 349-367): `score = 1.0`,
then `score *= evaluator(...)` for every sub-evaluator. -/
def evaluator_comb {α : Type} (evaluators : List (α → ℚ)) (x : α) : ℚ :=
  evaluators.foldl (fun score e => score * e x) 1

/-- The individual factor scores contributed by one criterion. -/
def criterion_scores (env : StringEvalEnv) (intent pred : String) :
    RefCriterion → List ℚ
  | RefCriterion.exact v => [exact_match v pred]
  | RefCriterion.must_inc vs => vs.map (fun mv => must_include env.tokenize mv pred)
  | RefCriterion.fuzzy vs => vs.map (fun r => env.llm_fuzzy_match pred r intent)

theorem foldl_mul_eq {β : Type} (f : β → ℚ) (s : ℚ) (l : List β) :
    l.foldl (fun acc b => acc * f b) s = s * (l.map f).prod := by
  induction l generalizing s with
  | nil => simp
  | cons a l ih => simp [ih, mul_assoc]

theorem prod_unit_interval {l : List ℚ} (h : ∀ y ∈ l, 0 ≤ y ∧ y ≤ 1) :
    0 ≤ l.prod ∧ l.prod ≤ 1 := by
  induction l with
  | nil => simp
  | cons a l ih =>
    have ha := h a (by simp)
    have hl := ih (fun y hy => h y (by simp [hy]))
    rw [List.prod_cons]
    refine ⟨mul_nonneg ha.1 hl.1, ?_⟩
    calc a * l.prod ≤ 1 * 1 := mul_le_mul ha.2 hl.2 hl.1 (by norm_num)
      _ = 1 := by norm_num

theorem prod_eq_one_iff_unit {l : List ℚ} (h : ∀ y ∈ l, 0 ≤ y ∧ y ≤ 1) :
    l.prod = 1 ↔ ∀ y ∈ l, y = 1 := by
  induction l with
  | nil => simp
  | cons a l ih =>
    have ha := h a (by simp)
    have hl : ∀ y ∈ l, 0 ≤ y ∧ y ≤ 1 := fun y hy => h y (by simp [hy])
    have hpl := prod_unit_interval hl
    rw [List.prod_cons]
    constructor
    · intro h1
      have hkey : a * l.prod ≤ a := by nlinarith [ha.1, hpl.2]
      have haeq : a = 1 := le_antisymm ha.2 (by linarith)
      have hpeq : l.prod = 1 := by rw [haeq, one_mul] at h1; exact h1
      intro y hy
      rcases List.mem_cons.mp hy with rfl | hy2
      · exact haeq
      · exact (ih hl).mp hpeq y hy2
    · intro h1
      have haeq := h1 a (by simp)
      have hpeq : l.prod = 1 := (ih hl).mpr (fun y hy => h1 y (by simp [hy]))
      rw [haeq, hpeq, one_mul]

/-- C9: the combined evaluator score equals the product of the individual
sub-evaluator scores; with every sub-score in [0,1] the product is 1.0
exactly when every sub-score is 1.0, and it is 0.0 whenever some sub-score
is 0.0.  Likewise the string evaluator's score is the product over all
exact_match, must_include and fuzzy_match criterion scores. -/
theorem evaluator_scores_multiply {α : Type} (evaluators : List (α → ℚ))
    (x : α) (env : StringEvalEnv) (criteria : List RefCriterion)
    (intent answer : String) :
    evaluator_comb evaluators x = (evaluators.map (fun e => e x)).prod ∧
    string_evaluator_score env criteria intent answer =
      ((criteria.map (criterion_scores env intent (clean_answer answer))).flatten).prod ∧
    ((∀ e ∈ evaluators, 0 ≤ e x ∧ e x ≤ 1) →
      (evaluator_comb evaluators x = 1 ↔ ∀ e ∈ evaluators, e x = 1)) ∧
    ((∃ e ∈ evaluators, e x = 0) → evaluator_comb evaluators x = 0) := by
  have hcomb : evaluator_comb evaluators x = (evaluators.map (fun e => e x)).prod := by
    unfold evaluator_comb
    rw [foldl_mul_eq (fun e => e x) 1 evaluators, one_mul]
  have hone : ∀ (pred : String) (c : RefCriterion) (s : ℚ),
      criterion_step env intent pred s c =
        s * (criterion_scores env intent pred c).prod := by
    intro pred c s
    cases c with
    | exact v => simp [criterion_step, criterion_scores]
    | must_inc vs =>
      rw [criterion_step, foldl_mul_eq (fun mv => must_include env.tokenize mv pred) s vs]
      simp [criterion_scores]
    | fuzzy vs =>
      rw [criterion_step, foldl_mul_eq (fun r => env.llm_fuzzy_match pred r intent) s vs]
      simp [criterion_scores]
  refine ⟨hcomb, ?_, ?_, ?_⟩
  · unfold string_evaluator_score
    generalize (clean_answer answer) = pred
    have hstep : ∀ (cs : List RefCriterion) (s : ℚ),
        cs.foldl (criterion_step env intent pred) s =
          s * ((cs.map (criterion_scores env intent pred)).flatten).prod := by
      intro cs
      induction cs with
      | nil => simp
      | cons d ds ihd =>
        intro s
        rw [List.foldl_cons, ihd, List.map_cons, List.flatten_cons,
          List.prod_append, hone, mul_assoc]
    rw [hstep, one_mul]
  · intro hb
    rw [hcomb]
    have hmap : ∀ y ∈ evaluators.map (fun e => e x), 0 ≤ y ∧ y ≤ 1 := by
      intro y hy
      obtain ⟨e, he, rfl⟩ := List.mem_map.mp hy
      exact hb e he
    rw [prod_eq_one_iff_unit hmap]
    constructor
    · intro h e he
      exact h (e x) (List.mem_map_of_mem _ he)
    · intro h y hy
      obtain ⟨e, he, rfl⟩ := List.mem_map.mp hy
      exact h e he
  · rintro ⟨e, he, h0⟩
    rw [hcomb]
    apply List.prod_eq_zero
    rw [← h0]
    exact List.mem_map_of_mem _ he

/-- Witness for C9 at a concrete evaluator list and criterion list. -/
theorem evaluator_scores_multiply_witness :
    (evaluator_comb [fun _ => (1 : ℚ), fun _ => 1] () =
      (([fun _ => (1 : ℚ), fun _ => 1] : List (Unit → ℚ)).map (fun e => e ())).prod ∧
    string_evaluator_score ⟨fun sx => [sx], fun _ _ _ => 1⟩ [RefCriterion.exact "a"] "" "a" =
      (([RefCriterion.exact "a"].map
        (criterion_scores ⟨fun sx => [sx], fun _ _ _ => 1⟩ "" (clean_answer "a"))).flatten).prod ∧
    ((∀ e ∈ ([fun _ => (1 : ℚ), fun _ => 1] : List (Unit → ℚ)), 0 ≤ e () ∧ e () ≤ 1) →
      (evaluator_comb [fun _ => (1 : ℚ), fun _ => 1] () = 1 ↔
        ∀ e ∈ ([fun _ => (1 : ℚ), fun _ => 1] : List (Unit → ℚ)), e () = 1)) ∧
    ((∃ e ∈ ([fun _ => (1 : ℚ), fun _ => 1] : List (Unit → ℚ)), e () = 0) →
      evaluator_comb [fun _ => (1 : ℚ), fun _ => 1] () = 0)) :=
  evaluator_scores_multiply [fun _ => (1 : ℚ), fun _ => 1] ()
    ⟨fun sx => [sx], fun _ _ _ => 1⟩ [RefCriterion.exact "a"] "" "a"

/-! ## C10: exact string matching via `clean_answer` -/

/-- C10: `exact_match` returns 1.0 exactly when the cleaned answers agree
(and only takes the values 1.0 and 0.0); `clean_answer` strips exactly one
layer of matching surrounding single or double quotes and lowercases; in
particular `"'$279.49'"` and `"$279.49"` compare equal. -/
theorem exact_match_clean_answer (ref pred s : String) :
    (exact_match ref pred = 1 ↔ clean_answer ref = clean_answer pred) ∧
    (exact_match ref pred = 1 ∨ exact_match ref pred = 0) ∧
    clean_answer ("'" ++ s ++ "'") = pyLower s ∧
    clean_answer ("\"" ++ s ++ "\"") = pyLower s ∧
    exact_match "'$279.49'" "$279.49" = 1 := by
  refine ⟨?_, ?_, ?_, ?_, by decide⟩
  · unfold exact_match
    by_cases h : clean_answer pred = clean_answer ref
    · simp [h, eq_comm]
    · rw [if_neg h]
      constructor
      · intro h1
        exact absurd h1 (by norm_num)
      · intro h1
        exact absurd h1.symm h
  · unfold exact_match
    by_cases h : clean_answer pred = clean_answer ref
    · left
      rw [if_pos h]
    · right
      rw [if_neg h]
  · unfold clean_answer pyLower py_strip_quotes
    have hd : ("'" ++ s ++ "'").data = '\'' :: (s.data ++ ['\'']) := by
      rw [String.data_append, String.data_append]
      rfl
    rw [hd]
    rw [if_pos ⟨by simp [List.isPrefixOf],
      List.isSuffixOf_iff_suffix.mpr ⟨'\'' :: s.data, by simp⟩⟩]
    simp [List.dropLast_concat]
  · unfold clean_answer pyLower py_strip_quotes
    have hd : ("\"" ++ s ++ "\"").data = '"' :: (s.data ++ ['"']) := by
      rw [String.data_append, String.data_append]
      rfl
    rw [hd]
    rw [if_neg (by rintro ⟨h1, _⟩; simp [List.isPrefixOf] at h1)]
    rw [if_pos ⟨by simp [List.isPrefixOf],
      List.isSuffixOf_iff_suffix.mpr ⟨'"' :: s.data, by simp⟩⟩]
    simp [List.dropLast_concat]

/-- Witness for C10 at `ref = "ABC"`, `pred = "abc"`, `s = "x"`. -/
theorem exact_match_clean_answer_witness :
    (exact_match "ABC" "abc" = 1 ↔ clean_answer "ABC" = clean_answer "abc") ∧
    (exact_match "ABC" "abc" = 1 ∨ exact_match "ABC" "abc" = 0) ∧
    clean_answer ("'" ++ "x" ++ "'") = pyLower "x" ∧
    clean_answer ("\"" ++ "x" ++ "\"") = pyLower "x" ∧
    exact_match "'$279.49'" "$279.49" = 1 :=
  exact_match_clean_answer "ABC" "abc" "x"

/-! ## The plan parsers (`src/agent/prompts/prompt_constructor.py`)

The source parses LLM output with `re` patterns.  Each pattern is embedded
as an explicit backtracking matcher with Python `re` semantics: literals,
greedy `\d+` / `\s+` (longest first), lazy `(.+?)` / `(.*?)` (shortest
first, `.` excludes the newline) and lazy `[\s\S]*?` (shortest first, any
character), composed in continuation-passing style so that failure of a
later component backtracks into an earlier one exactly as `re` does. -/

/-- Match a literal, returning the rest. -/
def litP (pat : List Char) (cs : List Char) : Option (List Char) :=
  if pat.isPrefixOf cs then some (cs.drop pat.length) else none

/-- Greedy `(\d+)` with backtracking: `full` is the maximal digit run,
`rest0` what follows it; try giving the continuation `n` digits, longest
first. -/
def digitsBack {α : Type} (full rest0 : List Char) :
    Nat → (List Char → List Char → Option α) → Option α
  | 0, _ => none
  | n + 1, k =>
    match k (full.take (n + 1)) (full.drop (n + 1) ++ rest0) with
    | some r => some r
    | none => digitsBack full rest0 n k

/-- Greedy `(\d+)`. -/
def digitsGreedy {α : Type} (cs : List Char)
    (k : List Char → List Char → Option α) : Option α :=
  digitsBack (cs.takeWhile Char.isDigit) (cs.dropWhile Char.isDigit)
    (cs.takeWhile Char.isDigit).length k

/-- Lazy `(.*?)` continued by `k` (which receives the capture and the
rest): try the shortest capture first, never crossing a newline.  `acc`
holds the reversed capture so far. -/
def dotLazyAux {α : Type} (acc : List Char) (cs : List Char)
    (k : List Char → List Char → Option α) : Option α :=
  match k acc.reverse cs with
  | some r => some r
  | none =>
    match cs with
    | [] => none
    | c :: rest => if c = '\n' then none else dotLazyAux (c :: acc) rest k

/-- Lazy `(.+?)`: at least one character, shortest first, no newline. -/
def dotPlusLazy {α : Type} (cs : List Char)
    (k : List Char → List Char → Option α) : Option α :=
  match cs with
  | [] => none
  | c :: rest => if c = '\n' then none else dotLazyAux [c] rest k

/-- Lazy `(.*?)`: possibly empty, shortest first, no newline. -/
def dotStarLazy {α : Type} (cs : List Char)
    (k : List Char → List Char → Option α) : Option α :=
  dotLazyAux [] cs k

/-- Lazy `[\s\S]*?` (uncaptured): skip any characters, shortest first. -/
def anyLazy {α : Type} (cs : List Char) (k : List Char → Option α) : Option α :=
  match k cs with
  | some r => some r
  | none =>
    match cs with
    | [] => none
    | _ :: rest => anyLazy rest k

/-- Greedy `\s+` (uncaptured) with backtracking, like `digitsBack`. -/
def wsBack {α : Type} (full rest0 : List Char) :
    Nat → (List Char → Option α) → Option α
  | 0, _ => none
  | n + 1, k =>
    match k (full.drop (n + 1) ++ rest0) with
    | some r => some r
    | none => wsBack full rest0 n k

/-- Greedy `\s+` (uncaptured). -/
def wsGreedy1 {α : Type} (cs : List Char) (k : List Char → Option α) : Option α :=
  wsBack (cs.takeWhile pyIsSpace) (cs.dropWhile pyIsSpace)
    (cs.takeWhile pyIsSpace).length k

/-- One record of `parse_global_plan`'s result list (the dict with keys
"Subtask Number", "Subtask Description", "Subtask Action",
"Expected State"). -/
structure SubtaskInfo where
  subtask_number : String
  subtask_description : String
  subtask_action : String
  expected_state : String
  deriving DecidableEq, Repr

/-- One record of `parse_local_plan`'s result list (the dict with keys
"Action Number" and "Action Description"). -/
structure ActionInfo where
  action_number : String
  action_description : String
  deriving DecidableEq, Repr

/-- One attempt of `parse_global_plan`'s pattern
`\*\*Subtask (\d+): (.+?)\*\*[\s\S]*?-\s+\*\*Subtask\*\*: (.+?)\n- \*\*Expected State\*\*: (.+?)\n\n`
at the current position; returns the captures (stripped as the source
strips them) and the rest after the match. -/
def matchSubtaskAt (cs : List Char) : Option (SubtaskInfo × List Char) :=
  match litP "**Subtask ".data cs with
  | none => none
  | some r1 =>
    digitsGreedy r1 (fun g1 r2 =>
      match litP ": ".data r2 with
      | none => none
      | some r3 =>
        dotPlusLazy r3 (fun g2 r4 =>
          match litP "**".data r4 with
          | none => none
          | some r5 =>
            anyLazy r5 (fun r6 =>
              match litP "-".data r6 with
              | none => none
              | some r7 =>
                wsGreedy1 r7 (fun r8 =>
                  match litP "**Subtask**: ".data r8 with
                  | none => none
                  | some r9 =>
                    dotPlusLazy r9 (fun g3 r10 =>
                      match litP "\n- **Expected State**: ".data r10 with
                      | none => none
                      | some r11 =>
                        dotPlusLazy r11 (fun g4 r12 =>
                          match litP "\n\n".data r12 with
                          | none => none
                          | some r13 =>
                            some ({ subtask_number := ⟨g1⟩,
                                    subtask_description := pyStrip ⟨g2⟩,
                                    subtask_action := pyStrip ⟨g3⟩,
                                    expected_state := pyStrip ⟨g4⟩ },
                              r13)))))))

/-- `re.finditer` over `matchSubtaskAt`: non-overlapping matches, scanning
left to right.  Fuelled recursion; any match consumes at least the opening
literal and any failure advances one character, so `length + 1` fuel is
always enough. -/
def scanSubtasks : Nat → List Char → List SubtaskInfo
  | 0, _ => []
  | fuel + 1, [] =>
    match matchSubtaskAt [] with
    | some (info, rest) => info :: scanSubtasks fuel rest
    | none => []
  | fuel + 1, c :: t =>
    match matchSubtaskAt (c :: t) with
    | some (info, rest) => info :: scanSubtasks fuel rest
    | none => scanSubtasks fuel t

/-- `GlobalPromptConstructor.parse_global_plan`
(prompt_constructor.py lines 382-402). -/
def parse_global_plan (text : String) : List SubtaskInfo :=
  scanSubtasks (text.length + 1) text.data

/-- One attempt of `parse_local_plan`'s pattern
`\*\*Action (\d+):\*\* (.+?)\n` at the current position. -/
def matchActionAt (cs : List Char) : Option (ActionInfo × List Char) :=
  match litP "**Action ".data cs with
  | none => none
  | some r1 =>
    digitsGreedy r1 (fun g1 r2 =>
      match litP ":** ".data r2 with
      | none => none
      | some r3 =>
        dotPlusLazy r3 (fun g2 r4 =>
          match litP "\n".data r4 with
          | none => none
          | some r5 =>
            some ({ action_number := ⟨g1⟩,
                    action_description := pyStrip ⟨g2⟩ }, r5)))

/-- `re.finditer` over `matchActionAt`. -/
def scanActions : Nat → List Char → List ActionInfo
  | 0, _ => []
  | fuel + 1, [] =>
    match matchActionAt [] with
    | some (info, rest) => info :: scanActions fuel rest
    | none => []
  | fuel + 1, c :: t =>
    match matchActionAt (c :: t) with
    | some (info, rest) => info :: scanActions fuel rest
    | none => scanActions fuel t

/-- `LocalPromptConstructor.parse_local_plan`
(prompt_constructor.py lines 210-226). -/
def parse_local_plan (text : String) : List ActionInfo :=
  scanActions (text.length + 1) text.data

/-- One attempt of the pattern `Decision: (.*?)\n` at the current
position, returning the capture. -/
def matchDecisionAt (cs : List Char) : Option (List Char) :=
  match litP "Decision: ".data cs with
  | none => none
  | some r1 =>
    dotStarLazy r1 (fun g r2 =>
      match litP "\n".data r2 with
      | none => none
      | some _ => some g)

/-- `re.search` of `Decision: (.*?)\n`. -/
def searchDecision : List Char → Option (List Char)
  | [] => none
  | c :: t =>
    match matchDecisionAt (c :: t) with
    | some g => some g
    | none => searchDecision t

/-- `re.search` of `marker(.*)` with `re.DOTALL`: the capture is
everything after the first occurrence of the marker. -/
def searchMarkerRest (marker : List Char) : List Char → Option (List Char)
  | [] => none
  | c :: t =>
    match litP marker (c :: t) with
    | some r => some r
    | none => searchMarkerRest marker t

/-- The record `parse_decide_result` returns (the dict with keys
"Decision" and "Reasons"); a missing marker yields Python `None`,
embedded as `Option.none`. -/
structure DecideResult where
  decision : Option String
  reasons : Option String
  deriving DecidableEq, Repr

/-- `GlobalPromptConstructor.parse_decide_result`
(prompt_constructor.py lines 403-423): `Decision` is stripped and
lowercased, `Reasons` is stripped. -/
def parse_decide_result (response : String) : DecideResult :=
  { decision := (searchDecision response.data).map (fun g => pyLower (pyStrip ⟨g⟩)),
    reasons := (searchMarkerRest "Reasons: ".data response.data).map
      (fun g => pyStrip ⟨g⟩) }

example :
    parse_local_plan "**Action 1:** click the button\n**Action 2:** stop\n" =
      [{ action_number := "1", action_description := "click the button" },
       { action_number := "2", action_description := "stop" }] := by decide

example :
    parse_decide_result "Decision: Replan\nReasons: the page changed" =
      { decision := some "replan", reasons := some "the page changed" } := by
  decide

/-! ### C8: the parsers never raise and mark absent fields -/

theorem not_prefix_of_not_contains {pat cs : List Char}
    (h : containsSub pat cs = false) : pat.isPrefixOf cs = false := by
  cases cs with
  | nil =>
    cases pat with
    | nil => simp [containsSub] at h
    | cons p ps => rfl
  | cons c t =>
    rw [containsSub] at h
    exact (Bool.or_eq_false_iff.mp h).1

theorem not_contains_tail {pat : List Char} {c : Char} {t : List Char}
    (h : containsSub pat (c :: t) = false) : containsSub pat t = false := by
  rw [containsSub] at h
  exact (Bool.or_eq_false_iff.mp h).2

theorem matchSubtaskAt_prefix {cs : List Char} {x : SubtaskInfo × List Char}
    (h : matchSubtaskAt cs = some x) :
    "**Subtask ".data.isPrefixOf cs = true := by
  by_cases hp : "**Subtask ".data.isPrefixOf cs = true
  · exact hp
  · unfold matchSubtaskAt litP at h
    rw [if_neg hp] at h
    simp at h

theorem matchActionAt_prefix {cs : List Char} {x : ActionInfo × List Char}
    (h : matchActionAt cs = some x) :
    "**Action ".data.isPrefixOf cs = true := by
  by_cases hp : "**Action ".data.isPrefixOf cs = true
  · exact hp
  · unfold matchActionAt litP at h
    rw [if_neg hp] at h
    simp at h

theorem matchDecisionAt_prefix {cs : List Char} {x : List Char}
    (h : matchDecisionAt cs = some x) :
    "Decision: ".data.isPrefixOf cs = true := by
  by_cases hp : "Decision: ".data.isPrefixOf cs = true
  · exact hp
  · unfold matchDecisionAt litP at h
    rw [if_neg hp] at h
    simp at h

theorem scanSubtasks_nil (fuel : Nat) (cs : List Char)
    (h : containsSub "**Subtask ".data cs = false) :
    scanSubtasks fuel cs = [] := by
  induction fuel generalizing cs with
  | zero => rfl
  | succ f ih =>
    have hm : matchSubtaskAt cs = none := by
      cases hmm : matchSubtaskAt cs with
      | none => rfl
      | some x =>
        have hp := matchSubtaskAt_prefix hmm
        rw [not_prefix_of_not_contains h] at hp
        simp at hp
    cases cs with
    | nil => rfl
    | cons c t =>
      rw [scanSubtasks, hm]
      exact ih t (not_contains_tail h)

theorem scanActions_nil (fuel : Nat) (cs : List Char)
    (h : containsSub "**Action ".data cs = false) :
    scanActions fuel cs = [] := by
  induction fuel generalizing cs with
  | zero => rfl
  | succ f ih =>
    have hm : matchActionAt cs = none := by
      cases hmm : matchActionAt cs with
      | none => rfl
      | some x =>
        have hp := matchActionAt_prefix hmm
        rw [not_prefix_of_not_contains h] at hp
        simp at hp
    cases cs with
    | nil => rfl
    | cons c t =>
      rw [scanActions, hm]
      exact ih t (not_contains_tail h)

theorem searchDecision_none (cs : List Char)
    (h : containsSub "Decision: ".data cs = false) :
    searchDecision cs = none := by
  induction cs with
  | nil => rfl
  | cons c t ih =>
    have hm : matchDecisionAt (c :: t) = none := by
      cases hmm : matchDecisionAt (c :: t) with
      | none => rfl
      | some x =>
        have hp := matchDecisionAt_prefix hmm
        rw [not_prefix_of_not_contains h] at hp
        simp at hp
    rw [searchDecision, hm]
    exact ih (not_contains_tail h)

theorem searchMarkerRest_none (pat : List Char) (cs : List Char)
    (h : containsSub pat cs = false) :
    searchMarkerRest pat cs = none := by
  induction cs with
  | nil => rfl
  | cons c t ih =>
    have hm : litP pat (c :: t) = none := by
      unfold litP
      rw [if_neg (by simp [not_prefix_of_not_contains h])]
    rw [searchMarkerRest, hm]
    exact ih (not_contains_tail h)

/-- C8: the plan parsers are total functions (they never raise); a text
not containing the opening marker of a subtask/action block yields the
empty plan; a decision text lacking the "Decision: " or "Reasons: " marker
yields a record whose corresponding field is the absent marker `none`,
which is distinct from the empty string `some ""`. -/
theorem plan_parsers_markerless (text : String) :
    (containsSub "**Subtask ".data text.data = false →
      parse_global_plan text = []) ∧
    (containsSub "**Action ".data text.data = false →
      parse_local_plan text = []) ∧
    (containsSub "Decision: ".data text.data = false →
      (parse_decide_result text).decision = none) ∧
    (containsSub "Reasons: ".data text.data = false →
      (parse_decide_result text).reasons = none) ∧
    ((none : Option String) ≠ some "") := by
  refine ⟨?_, ?_, ?_, ?_, by simp⟩
  · intro h
    exact scanSubtasks_nil _ _ h
  · intro h
    exact scanActions_nil _ _ h
  · intro h
    unfold parse_decide_result
    rw [searchDecision_none _ h]
    rfl
  · intro h
    unfold parse_decide_result
    rw [searchMarkerRest_none _ _ h]
    rfl

/-- Witness for C8 at the marker-free text `"hello"`. -/
theorem plan_parsers_markerless_witness :
    parse_global_plan "hello" = [] ∧ parse_local_plan "hello" = [] ∧
    (parse_decide_result "hello").decision = none ∧
    (parse_decide_result "hello").reasons = none :=
  ⟨(plan_parsers_markerless "hello").1 (by decide),
   (plan_parsers_markerless "hello").2.1 (by decide),
   (plan_parsers_markerless "hello").2.2.1 (by decide),
   (plan_parsers_markerless "hello").2.2.2.1 (by decide)⟩

/-! ## The action interpreter (`src/agent/agent.py`, `LocalAgent.next_action`)

`_extract_action` searches `rf"{action_splitter}(.*?){action_splitter}"`
(the configured splitter is the triple-backtick fence).  The pattern is
embedded like the plan-parser patterns: leftmost start, lazy newline-free
middle, and on a missing closing fence the search moves one character
right, exactly as `re.search` does. -/

/-- The lazy middle of the splitter pattern: from the current position,
the shortest newline-free run followed by the closing splitter. -/
def middleTo (splitter : List Char) : List Char → Option (List Char)
  | [] => if splitter.isEmpty then some [] else none
  | c :: rest =>
    if splitter.isPrefixOf (c :: rest) then some []
    else if c = '\n' then none
    else (middleTo splitter rest).map (fun m => c :: m)

/-- `re.search(rf"{splitter}(.*?){splitter}", ·)`, returning group 1. -/
def regex_search_between (splitter : List Char) : List Char → Option (List Char)
  | [] => none
  | c :: rest =>
    if splitter.isPrefixOf (c :: rest) then
      match middleTo splitter ((c :: rest).drop splitter.length) with
      | some m => some m
      | none => regex_search_between splitter rest
    else regex_search_between splitter rest

/-- Python `str.replace(old, new)` (all non-overlapping occurrences, left
to right); fuelled on the input length, which suffices for the non-empty
`old` strings `map_url_to_local` uses. -/
def pyReplaceAux (old new : List Char) : Nat → List Char → List Char
  | 0, cs => cs
  | _ + 1, [] => []
  | fuel + 1, c :: rest =>
    if old ≠ [] ∧ old.isPrefixOf (c :: rest) then
      new ++ pyReplaceAux old new fuel ((c :: rest).drop old.length)
    else
      c :: pyReplaceAux old new fuel rest

/-- Python `str.replace(old, new)`. -/
def pyReplaceChars (old new cs : List Char) : List Char :=
  pyReplaceAux old new cs.length cs

/-- The default site URLs of `src/browser_env/env_config.py` (the
`os.environ.get` defaults; environment overrides are deployment
configuration). -/
def REDDIT : String := "http://ec2-3-131-244-37.us-east-2.compute.amazonaws.com:9999"

def SHOPPING : String := "http://ec2-3-131-244-37.us-east-2.compute.amazonaws.com:7770"

def SHOPPING_ADMIN : String :=
  "http://ec2-3-131-244-37.us-east-2.compute.amazonaws.com:7780/admin"

def GITLAB : String := "http://ec2-3-131-244-37.us-east-2.compute.amazonaws.com:8023"

def WIKIPEDIA : String :=
  "http://ec2-3-131-244-37.us-east-2.compute.amazonaws.com:8888/wikipedia_en_all_maxi_2022-05/A/User:The_other_Kiwix_guy/Landing"

def MAP : String := "http://ec2-3-131-244-37.us-east-2.compute.amazonaws.com:3000"

def HOMEPAGE : String := "http://ec2-3-131-244-37.us-east-2.compute.amazonaws.com:4399"

/-- `URL_MAPPINGS` of `src/browser_env/env_config.py` (insertion order of
the dict). -/
def URL_MAPPINGS : List (String × String) :=
  [(REDDIT, "http://reddit.com"),
   (SHOPPING, "http://onestopmarket.com"),
   (SHOPPING_ADMIN, "http://luma.com/admin"),
   (GITLAB, "http://gitlab.com"),
   (WIKIPEDIA, "http://wikipedia.org"),
   (MAP, "http://openstreetmap.org"),
   (HOMEPAGE, "http://homepage.com")]

/-- `PromptConstructor.map_url_to_local`
(prompt_constructor.py lines 102-107). -/
def map_url_to_local (url : String) : String :=
  URL_MAPPINGS.foldl
    (fun url ij =>
      if containsSub ij.2.data url.data then
        ⟨pyReplaceChars ij.2.data ij.1.data url.data⟩
      else url)
    url

/-- `LocalPromptConstructor._extract_action` (prompt_constructor.py lines
178-187) composed with `map_url_to_local` as in
`PromptConstructor.extract_action` (lines 112-115).  A failed search
raises `ActionParsingError`, embedded as `none`. -/
def extract_action (action_splitter response : String) : Option String :=
  (regex_search_between action_splitter.data response.data).map
    (fun m => map_url_to_local ⟨m⟩)

/-- Helper for the modelled `create_id_based_action`: the `[...]` argument
groups of an action string (`false` = outside brackets; `acc` holds the
reversed current group). -/
def bracketArgsAux : Bool → List Char → List Char → List (List Char)
  | _, _, [] => []
  | false, _, c :: rest =>
    if c = '[' then bracketArgsAux true [] rest
    else bracketArgsAux false [] rest
  | true, acc, c :: rest =>
    if c = ']' then acc.reverse :: bracketArgsAux false [] rest
    else bracketArgsAux true (c :: acc) rest

/-- The `[...]` argument groups of an action string. -/
def bracketArgs (cs : List Char) : List (List Char) :=
  bracketArgsAux false [] cs

/-- Modelled from the spec: `create_id_based_action` from
`browser_env/actions.py` (not in the repository snapshot) parses the
id-based grammar of §4.1 — `click [id]`,
`type [id] [content] [press_enter_after=0|1]`, `hover [id]`,
`press [key_comb]`, `scroll [direction]`, `goto [url]`, `new_tab`,
`tab_focus [page]`, `close_tab`, `go_back`, `go_forward`, `stop [answer]` —
and raises `ActionParsingError` (embedded as `none`) on an unknown verb or
a malformed argument list. -/
def create_id_based_action (s : String) : Option Action :=
  let cs := pyStripChars s.data
  let verb : String := ⟨cs.takeWhile (fun c => c ≠ ' ')⟩
  let args := bracketArgs cs
  if verb = "click" then
    match args with
    | [g] => some { action_type := ActionTypes.CLICK, element_id := ⟨g⟩ }
    | _ => none
  else if verb = "type" then
    match args with
    | [g1, g2, g3] =>
      if g3 = ['0'] ∨ g3 = ['1'] then
        some { action_type := ActionTypes.TYPE, element_id := ⟨g1⟩, text := ⟨g2⟩ }
      else none
    | _ => none
  else if verb = "hover" then
    match args with
    | [g] => some { action_type := ActionTypes.HOVER, element_id := ⟨g⟩ }
    | _ => none
  else if verb = "press" then
    match args with
    | [g] => some { action_type := ActionTypes.KEY_PRESS, key_comb := ⟨g⟩ }
    | _ => none
  else if verb = "scroll" then
    match args with
    | [g] => some { action_type := ActionTypes.SCROLL, direction := ⟨g⟩ }
    | _ => none
  else if verb = "goto" then
    match args with
    | [g] => some { action_type := ActionTypes.GOTO_URL, url := ⟨g⟩ }
    | _ => none
  else if verb = "new_tab" then
    some { action_type := ActionTypes.NEW_TAB }
  else if verb = "tab_focus" then
    match args with
    | [_] => some { action_type := ActionTypes.PAGE_FOCUS }
    | _ => none
  else if verb = "close_tab" then
    some { action_type := ActionTypes.PAGE_CLOSE }
  else if verb = "go_back" then
    some { action_type := ActionTypes.GO_BACK }
  else if verb = "go_forward" then
    some { action_type := ActionTypes.GO_FORWARD }
  else if verb = "stop" then
    match args with
    | [g] => some (create_stop_action ⟨g⟩)
    | [] => some (create_stop_action "")
    | _ => none
  else
    none

/-- `LocalAgent.next_action` (src/agent/agent.py lines 120-139) in the
default `id_accessibility_tree` configuration (the startup check of
src/test_plan.py lines 139-145 requires it whenever the observation is an
accessibility tree).  On `ActionParsingError` — from the splitter
extraction or from the action grammar — the sentinel "none" action is
substituted; in every case `raw_prediction` is set to the raw model
output. -/
def next_action (action_splitter action_description : String) : Action :=
  match extract_action action_splitter action_description with
  | some parsed =>
    match create_id_based_action parsed with
    | some action => { action with raw_prediction := action_description }
    | none => { create_none_action with raw_prediction := action_description }
  | none => { create_none_action with raw_prediction := action_description }

example :
    next_action "```" "Let me click.\n```click [42]```" =
      { action_type := ActionTypes.CLICK, element_id := "42",
        raw_prediction := "Let me click.\n```click [42]```" } := by decide

/-- A successful search implies the splitter occurs in the text. -/
theorem regex_search_contains {spl : List Char} : ∀ {cs m : List Char},
    regex_search_between spl cs = some m → containsSub spl cs = true := by
  intro cs
  induction cs with
  | nil =>
    intro m h
    simp [regex_search_between] at h
  | cons c t ih =>
    intro m h
    by_cases hp : spl.isPrefixOf (c :: t) = true
    · simp [containsSub, hp]
    · have hr : regex_search_between spl (c :: t) = regex_search_between spl t := by
        rw [regex_search_between, if_neg hp]
      rw [hr] at h
      simp [containsSub, ih h]

/-- C7: whenever the splitter-delimited extraction fails, or it succeeds
but the enclosed action has an unknown verb or malformed arguments,
`next_action` does not propagate the parse error: it returns the "none"
sentinel action whose `raw_prediction` field holds the original input text
verbatim; and a text in which the splitter does not occur always fails
extraction. -/
theorem next_action_none_sentinel (action_splitter text : String)
    (h : ∀ s, extract_action action_splitter text = some s →
      create_id_based_action s = none) :
    (next_action action_splitter text).action_type = ActionTypes.NONE ∧
    (next_action action_splitter text).raw_prediction = text ∧
    (containsSub action_splitter.data text.data = false →
      extract_action action_splitter text = none) := by
  have hlast : containsSub action_splitter.data text.data = false →
      extract_action action_splitter text = none := by
    intro hc
    unfold extract_action
    cases hr : regex_search_between action_splitter.data text.data with
    | none => rfl
    | some m =>
      rw [regex_search_contains hr] at hc
      simp at hc
  refine ⟨?_, ?_, hlast⟩ <;>
  · unfold next_action
    cases he : extract_action action_splitter text with
    | none => rfl
    | some s =>
      simp [h s he, create_none_action]

/-- Witness for C7: `"click [42]"` contains no triple-backtick fence, so
the sentinel is returned and the raw text is preserved verbatim. -/
theorem next_action_none_sentinel_witness :
    (next_action "```" "click [42]").action_type = ActionTypes.NONE ∧
    (next_action "```" "click [42]").raw_prediction = "click [42]" ∧
    (containsSub "```".data "click [42]".data = false →
      extract_action "```" "click [42]" = none) :=
  next_action_none_sentinel "```" "click [42]"
    (fun s hs => by
      rw [show extract_action "```" "click [42]" = none from by decide] at hs
      exact Option.noConfusion hs)

/-! ## The control loop (`src/test_plan.py`, `test_plan`)

The source keeps the task state in variables shared between nested
closures (`process_action`, `execute_local_plan`) and the enclosing task
loop.  Following the spec's design note (§9), which identifies this
implicit sharing as a latent scope defect, the embedding threads the
state explicitly as a `PhaseState` record through each transition; the
statement order inside each fragment is exactly the source's.  The
per-task driver of lines 307-330 (which the source's indentation places
inside `execute_local_plan`'s loop body) is modelled as the separate
`driver_iter`/`driver_run`, matching the line ranges the claims cite
(246-295 for the phase executor, 321-330 for the driver).

The LLM and browser collaborators (the alignment check, plan revisions,
replan arbitration, `env.step`) are oracles indexed by the iteration that
consumes them; logging and rendering calls, and the unused
`decision = check_action(...)` assignments, have no effect on the state
and are dropped. -/

/-- The collaborator responses one call of `execute_local_plan` consumes,
indexed by the iteration of its `while` loop.  `revise_local_plan`
returning `[]` embeds every Python falsy result of
`local_agent.revise_local_plan`. -/
structure PhaseOracle where
  check_alignment : Nat → Bool
  revise_local_plan : Nat → List Action
  decide_replan : Nat → String
  revise_global_plan : Nat → List SubtaskInfo
  overrule_revision : Nat → List Action
  env_step : Nat → StateInfo × Bool
  describe : Action → String

/-- The mutable state the source shares across the nested closures,
threaded explicitly (spec §9). -/
structure PhaseState where
  trajectory : List TrajEntry
  action_history : List String
  action_num : Nat
  local_plan : List Action
  global_plan : List SubtaskInfo
  global_plan_num : Nat
  phase_num : Nat
  done_var : Option Bool
  deriving DecidableEq, Repr

/-- Observable events of a run, for stating ordering properties. -/
inductive LoopEvent where
  | eval_early_stop
  | exec_action (a : Action)
  | env_stepped
  | phase_task_started (t : SubtaskInfo)
  deriving DecidableEq, Repr

/-- How one iteration of `execute_local_plan`'s `while` loop ends.
`next_iteration` falls through to the next iteration; the three `broke_*`
outcomes are the source's `break` statements (after which the function
runs off its end and returns Python `None`); `returned d` is the
`return done` at line 295 with `done` bound; `crashed_unbound_done` is
that same statement when `done` was never assigned in this call
(`UnboundLocalError`). -/
inductive PhaseOutcome where
  | next_iteration
  | broke_replan
  | broke_done
  | broke_stop
  | returned (done : Bool)
  | crashed_unbound_done
  | out_of_fuel
  deriving DecidableEq, Repr

/-- `process_action` (src/test_plan.py lines 232-244): append the action
to the trajectory and its description to the action history. -/
def process_action (describe : Action → String) (a : Action)
    (st : PhaseState) : PhaseState :=
  { st with trajectory := st.trajectory ++ [TrajEntry.action a],
            action_history := st.action_history ++ [describe a] }

/-- Lines 249-258 of `execute_local_plan`: synthesize the early-stop STOP
action, or pop `local_plan[action_num]` (an `IndexError` becomes a STOP
carrying `str(e)`), advancing `action_num` only in the non-early-stop
branch. -/
def pick_action (early_stop_flag : Bool) (stop_info : String)
    (st : PhaseState) : Action × PhaseState :=
  if early_stop_flag then
    (create_stop_action ("Early stop: " ++ stop_info), st)
  else
    match st.local_plan.get? st.action_num with
    | some a => (a, { st with action_num := st.action_num + 1 })
    | none =>
      (create_stop_action "ERROR: list index out of range",
        { st with action_num := st.action_num + 1 })

/-- Lines 261-295 of `execute_local_plan`, after the action has been
appended (`st1` is the state after `process_action`): the alignment check
and the revise/escalate branches. -/
def phase_branch (O : PhaseOracle) (i : Nat) (action : Action)
    (st1 : PhaseState) : PhaseState × PhaseOutcome × List LoopEvent :=
  -- line 261: alignment check
  if O.check_alignment i then
    (st1, PhaseOutcome.next_iteration, [LoopEvent.exec_action action])
  else
    -- lines 263-266: try a local revision first
    if O.revise_local_plan i ≠ [] then
      ({ st1 with local_plan := O.revise_local_plan i },
        match st1.done_var with
        | some d => PhaseOutcome.returned d
        | none => PhaseOutcome.crashed_unbound_done,
        [LoopEvent.exec_action action])
    else
      -- lines 268-276: escalate to the global planner
      if O.decide_replan i = "replan" then
        ({ st1 with global_plan := O.revise_global_plan i,
                    global_plan_num := st1.global_plan_num + 1,
                    phase_num := 0 },
          PhaseOutcome.broke_replan, [LoopEvent.exec_action action])
      else
        -- lines 277-280: an "overrule" replaces the local plan
        -- unconditionally; then (lines 281-295, for any non-replan
        -- decision) the environment steps and the new state is appended
        let st2 :=
          if O.decide_replan i = "overrule" then
            { st1 with local_plan := O.overrule_revision i }
          else st1
        let st3 := { st2 with
          trajectory := st2.trajectory ++ [TrajEntry.state (O.env_step i).1],
          done_var := some (O.env_step i).2 }
        if (O.env_step i).2 then
          (st3, PhaseOutcome.broke_done,
            [LoopEvent.exec_action action, LoopEvent.env_stepped])
        else if action.action_type = ActionTypes.STOP then
          (st3, PhaseOutcome.broke_stop,
            [LoopEvent.exec_action action, LoopEvent.env_stepped])
        else
          (st3, PhaseOutcome.returned (O.env_step i).2,
            [LoopEvent.exec_action action, LoopEvent.env_stepped])

/-- One iteration of the `while 1` loop of `execute_local_plan`
(src/test_plan.py lines 248-295).  `early_stop_flag`/`stop_info` are the
values computed once by the driver before the phase (line 324); they are
constants throughout the phase. -/
def phase_iter (O : PhaseOracle) (early_stop_flag : Bool) (stop_info : String)
    (i : Nat) (st : PhaseState) :
    PhaseState × PhaseOutcome × List LoopEvent :=
  phase_branch O i (pick_action early_stop_flag stop_info st).1
    (process_action O.describe (pick_action early_stop_flag stop_info st).1
      (pick_action early_stop_flag stop_info st).2)

/-- Run `execute_local_plan`'s loop, starting at iteration `i`, for at
most `fuel` iterations (the loop of the source has no built-in bound; the
always-aligned phase never terminates). -/
def phase_run (O : PhaseOracle) (early_stop_flag : Bool) (stop_info : String) :
    Nat → Nat → PhaseState → PhaseState × PhaseOutcome × List LoopEvent
  | 0, _, st => (st, PhaseOutcome.out_of_fuel, [])
  | fuel + 1, i, st =>
    let step := phase_iter O early_stop_flag stop_info i st
    match step.2.1 with
    | PhaseOutcome.next_iteration =>
      let rest := phase_run O early_stop_flag stop_info fuel (i + 1) step.1
      (rest.1, rest.2.1, step.2.2 ++ rest.2.2)
    | _ => step

/-- The collaborator responses one iteration of the per-task driver
consumes: the fresh local plan of line 323 and the phase executor's
oracles, indexed by the driver iteration. -/
structure DriverOracle where
  local_plan : Nat → List Action
  phase : Nat → PhaseOracle

/-- The configuration the driver reads (argparse values). -/
structure DriverConfig where
  max_steps : Nat
  parsing_failure_th : Nat
  repeating_action_failure_th : Nat
  phase_fuel : Nat

/-- How one iteration of the per-task `while 1` loop (lines 321-330)
ends. -/
inductive DriverOutcome where
  | next_phase
  | finished
  | crashed_index
  | crashed_unbound
  | out_of_fuel
  deriving DecidableEq, Repr

/-- The phase state at entry of `execute_local_plan`: the call's own
locals `action_num` and `done` start fresh, and `local_plan` is the plan
just produced at line 323. -/
def driver_stP (O : DriverOracle) (j : Nat) (st : PhaseState) : PhaseState :=
  { st with local_plan := O.local_plan j,
            action_num := 0,
            done_var := none }

/-- Line 324: the once-per-phase early-stop evaluation. -/
def driver_es (cfg : DriverConfig) (st : PhaseState) : Bool × String :=
  early_stop st.trajectory cfg.max_steps cfg.parsing_failure_th
    cfg.repeating_action_failure_th

/-- Line 325: the phase execution. -/
def driver_pr (cfg : DriverConfig) (O : DriverOracle) (j : Nat)
    (st : PhaseState) : PhaseState × PhaseOutcome × List LoopEvent :=
  phase_run (O.phase j) (driver_es cfg (driver_stP O j st)).1
    (driver_es cfg (driver_stP O j st)).2 cfg.phase_fuel 0 (driver_stP O j st)

/-- Lines 326-330: interpret the phase outcome.  A phase loop that
`break`s makes `execute_local_plan` return `None`, so `if done:` (line
326) fires only on `return done` with `done = True`; otherwise
`phase_num += 1` and the loop ends when it reaches
`global_plan_len = len(initial_global_plan)` (lines 314, 328-330). -/
def driver_finish (initial_global_plan : List SubtaskInfo) (stF : PhaseState)
    (out : PhaseOutcome) (events : List LoopEvent) :
    PhaseState × DriverOutcome × List LoopEvent :=
  match out with
  | PhaseOutcome.returned true => (stF, DriverOutcome.finished, events)
  | PhaseOutcome.crashed_unbound_done =>
    (stF, DriverOutcome.crashed_unbound, events)
  | PhaseOutcome.out_of_fuel => (stF, DriverOutcome.out_of_fuel, events)
  | _ =>
    if initial_global_plan.length ≤ stF.phase_num + 1 then
      ({ stF with phase_num := stF.phase_num + 1 },
        DriverOutcome.finished, events)
    else
      ({ stF with phase_num := stF.phase_num + 1 },
        DriverOutcome.next_phase, events)

/-- One iteration of the per-task `while 1` loop
(src/test_plan.py lines 321-330): fetch `cur_phase_task` from
`initial_global_plan[phase_num]` (line 322 — the *initial* plan, not the
active `global_plan`), obtain a fresh local plan, evaluate `early_stop`
once, execute the phase, then interpret the outcome. -/
def driver_iter (cfg : DriverConfig) (O : DriverOracle)
    (initial_global_plan : List SubtaskInfo) (j : Nat) (st : PhaseState) :
    PhaseState × DriverOutcome × List LoopEvent :=
  match initial_global_plan.get? st.phase_num with
  | none => (st, DriverOutcome.crashed_index, [])
  | some cur_phase_task =>
    driver_finish initial_global_plan (driver_pr cfg O j st).1
      (driver_pr cfg O j st).2.1
      (LoopEvent.phase_task_started cur_phase_task ::
        LoopEvent.eval_early_stop :: (driver_pr cfg O j st).2.2)

/-- Run the per-task loop for at most `fuel` phases. -/
def driver_run (cfg : DriverConfig) (O : DriverOracle)
    (initial_global_plan : List SubtaskInfo) :
    Nat → Nat → PhaseState → PhaseState × DriverOutcome × List LoopEvent
  | 0, _, st => (st, DriverOutcome.out_of_fuel, [])
  | fuel + 1, j, st =>
    let step := driver_iter cfg O initial_global_plan j st
    match step.2.1 with
    | DriverOutcome.next_phase =>
      let rest := driver_run cfg O initial_global_plan fuel (j + 1) step.1
      (rest.1, rest.2.1, step.2.2 ++ rest.2.2)
    | _ => step

/-- One task attempt (src/test_plan.py lines 307-330): fresh trajectory
holding the reset state, action history `["None"]`, the initial global
plan installed as the active plan, `global_plan_num = 1`, phase cursor 0,
then the per-task loop. -/
def test_plan_run (cfg : DriverConfig) (O : DriverOracle) (s0 : StateInfo)
    (initial_global_plan : List SubtaskInfo) (fuel : Nat) :
    PhaseState × DriverOutcome × List LoopEvent :=
  driver_run cfg O initial_global_plan fuel 0
    { trajectory := [TrajEntry.state s0],
      action_history := ["None"],
      action_num := 0,
      local_plan := [],
      global_plan := initial_global_plan,
      global_plan_num := 1,
      phase_num := 0,
      done_var := none }

/-- The phase tasks a run actually starts executing, in order. -/
def tasks_started (evs : List LoopEvent) : List SubtaskInfo :=
  evs.filterMap fun e =>
    match e with
    | LoopEvent.phase_task_started t => some t
    | _ => none

/-! ### Concrete runs for C1, C2, C3 -/

/-- An oracle whose alignment check always passes (the happy path). -/
def alignedOracle : PhaseOracle :=
  { check_alignment := fun _ => true,
    revise_local_plan := fun _ => [],
    decide_replan := fun _ => "",
    revise_global_plan := fun _ => [],
    overrule_revision := fun _ => [],
    env_step := fun _ => (stateS, false),
    describe := fun _ => "action" }

/-- The phase state at entry of a first phase with a two-click plan. -/
def stC1 : PhaseState :=
  { trajectory := [TrajEntry.state stateS],
    action_history := ["None"],
    action_num := 0,
    local_plan := [clickA, clickB],
    global_plan := [],
    global_plan_num := 1,
    phase_num := 0,
    done_var := none }

/-- C1 (code bug): in a phase execution whose alignment checks pass, a
completed iteration appends the Action but never the resulting StateInfo —
`env.step` and the state append (lines 281-283) sit only inside the
misaligned/escalate branch.  After the first aligned action the trajectory
is `[state, action]` (even length) and the loop simply continues; after
two, two Actions are adjacent.  The claimed parity invariant fails. -/
theorem trajectory_parity_code_bug :
    (phase_iter alignedOracle false "" 0 stC1).1.trajectory =
      [TrajEntry.state stateS, TrajEntry.action clickA] ∧
    (phase_iter alignedOracle false "" 0 stC1).2.1 = PhaseOutcome.next_iteration ∧
    (phase_run alignedOracle false "" 2 0 stC1).1.trajectory =
      [TrajEntry.state stateS, TrajEntry.action clickA, TrajEntry.action clickB] ∧
    ¬ TrajectoryWF [TrajEntry.state stateS, TrajEntry.action clickA] ∧
    ¬ TrajectoryWF
      [TrajEntry.state stateS, TrajEntry.action clickA, TrajEntry.action clickB] :=
  ⟨by decide, by decide, by decide, by decide, by decide⟩

/-- Phase tasks of the initial plan and of the revised plan. -/
def phaseP0 : SubtaskInfo :=
  { subtask_number := "1", subtask_description := "P0",
    subtask_action := "", expected_state := "" }

def phaseP1 : SubtaskInfo :=
  { subtask_number := "2", subtask_description := "P1",
    subtask_action := "", expected_state := "" }

def phaseQ0 : SubtaskInfo :=
  { subtask_number := "1", subtask_description := "Q0",
    subtask_action := "", expected_state := "" }

def phaseQ1 : SubtaskInfo :=
  { subtask_number := "2", subtask_description := "Q1",
    subtask_action := "", expected_state := "" }

/-- First phase: misaligned, local revision fails, the planner decides
`replan`, producing `[Q0, Q1]`. -/
def replanPhaseOracle : PhaseOracle :=
  { check_alignment := fun _ => false,
    revise_local_plan := fun _ => [],
    decide_replan := fun _ => "replan",
    revise_global_plan := fun _ => [phaseQ0, phaseQ1],
    overrule_revision := fun _ => [],
    env_step := fun _ => (stateS, false),
    describe := fun _ => "a" }

/-- Later phases: misaligned, no revision, no arbitration decision, and
the environment reports done. -/
def doneStopOracle : PhaseOracle :=
  { check_alignment := fun _ => false,
    revise_local_plan := fun _ => [],
    decide_replan := fun _ => "",
    revise_global_plan := fun _ => [],
    overrule_revision := fun _ => [],
    env_step := fun _ => (stateS, true),
    describe := fun _ => "a" }

def replanDriverOracle : DriverOracle :=
  { local_plan := fun _ => [clickA],
    phase := fun j => if j = 0 then replanPhaseOracle else doneStopOracle }

/-- The default argparse configuration (`max_steps = 30`, thresholds 3). -/
def cfgDefault : DriverConfig :=
  { max_steps := 30, parsing_failure_th := 3,
    repeating_action_failure_th := 3, phase_fuel := 3 }

/-- C2 (code bug): with initial plan `[P0, P1]`, a first-phase `replan`
decision installs the brand-new plan `[Q0, Q1]` and resets the phase
cursor to 0 — but the driver then increments the cursor and draws the next
phase task from `initial_global_plan` (line 322), so the task it actually
executes next is `P1` from the old plan, which is not in the new plan at
all. -/
theorem replan_new_plan_unused_code_bug :
    (test_plan_run cfgDefault replanDriverOracle stateS
      [phaseP0, phaseP1] 3).1.global_plan = [phaseQ0, phaseQ1] ∧
    tasks_started (test_plan_run cfgDefault replanDriverOracle stateS
      [phaseP0, phaseP1] 3).2.2 = [phaseP0, phaseP1] ∧
    phaseP1 ∉ [phaseQ0, phaseQ1] :=
  ⟨by decide, by decide, by decide⟩

/-- A one-phase driver whose alignment checks always pass. -/
def alignedDriverOracle : DriverOracle :=
  { local_plan := fun _ => [clickA, clickB],
    phase := fun _ => alignedOracle }

/-- `cfgDefault` with fuel for exactly two phase iterations. -/
def cfgFuel2 : DriverConfig :=
  { max_steps := 30, parsing_failure_th := 3,
    repeating_action_failure_th := 3, phase_fuel := 2 }

/-- Marker for executed actions among the events. -/
def is_exec : LoopEvent → Bool
  | LoopEvent.exec_action _ => true
  | _ => false

/-- "The early-stop monitor is re-evaluated between any two consecutive
executed actions", stated over an event trace. -/
def fresh_eval_between (evs : List LoopEvent) : Prop :=
  ∀ j, j < evs.length → ∀ i, i < j →
    is_exec (evs.getD i LoopEvent.env_stepped) = true →
    is_exec (evs.getD j LoopEvent.env_stepped) = true →
    (∀ m, m < j → i < m → is_exec (evs.getD m LoopEvent.env_stepped) = false) →
    ∃ m, m < j ∧ (i < m ∧
      evs.getD m LoopEvent.env_stepped = LoopEvent.eval_early_stop)

/-- C3 counterexample: a one-phase run with two aligned actions produces
the trace `[task, eval_early_stop, action, action]` — the monitor is
evaluated once, before the phase, and between the two consecutive executed
actions of the same phase there is no fresh early-stop evaluation. -/
theorem early_stop_per_phase_cex :
    (test_plan_run cfgFuel2 alignedDriverOracle stateS [phaseP0] 1).2.2 =
      [LoopEvent.phase_task_started phaseP0, LoopEvent.eval_early_stop,
       LoopEvent.exec_action clickA, LoopEvent.exec_action clickB] ∧
    ¬ fresh_eval_between
      (test_plan_run cfgFuel2 alignedDriverOracle stateS [phaseP0] 1).2.2 := by
  refine ⟨by decide, ?_⟩
  intro hf
  have h := hf 3 (by decide) 2 (by decide) (by decide) (by decide)
    (fun m h1 h2 => absurd h1 (by omega))
  obtain ⟨m, hm3, hm2, _⟩ := h
  omega

/-- The events of the post-pick branches: one executed action, possibly
followed by one environment step. -/
theorem phase_branch_events (O : PhaseOracle) (i : Nat) (action : Action)
    (st1 : PhaseState) :
    (phase_branch O i action st1).2.2 = [LoopEvent.exec_action action] ∨
    (phase_branch O i action st1).2.2 =
      [LoopEvent.exec_action action, LoopEvent.env_stepped] := by
  unfold phase_branch
  split_ifs <;> first | (left; rfl) | (right; rfl)

/-- The branches after the action pick never touch `action_num`. -/
theorem phase_branch_action_num (O : PhaseOracle) (i : Nat) (action : Action)
    (st1 : PhaseState) :
    (phase_branch O i action st1).1.action_num = st1.action_num := by
  unfold phase_branch
  split_ifs <;> rfl

theorem phase_iter_no_eval (O : PhaseOracle) (flag : Bool) (info : String)
    (i : Nat) (st : PhaseState) :
    (phase_iter O flag info i st).2.2.countP
      (fun e => e = LoopEvent.eval_early_stop) = 0 := by
  rcases phase_branch_events O i (pick_action flag info st).1
      (process_action O.describe (pick_action flag info st).1
        (pick_action flag info st).2) with ha | ha <;>
    · unfold phase_iter
      rw [ha]
      simp

theorem phase_run_no_eval (O : PhaseOracle) (flag : Bool) (info : String) :
    ∀ (fuel i : Nat) (st : PhaseState),
    (phase_run O flag info fuel i st).2.2.countP
      (fun e => e = LoopEvent.eval_early_stop) = 0 := by
  intro fuel
  induction fuel with
  | zero => intro i st; rfl
  | succ f ih =>
    intro i st
    simp only [phase_run]
    cases ho : (phase_iter O flag info i st).2.1 <;>
      simp [ho, List.countP_append, ih, phase_iter_no_eval]

/-- C3 (amended): the early-stop monitor is evaluated once per phase — by
the driver, after the phase task and the fresh local plan are fetched and
before any of the phase's actions — not before each action; and whenever
its flag has fired, every iteration of the phase loop executes a
synthesized STOP action carrying `"Early stop: " ++ stop_info` as the
answer instead of consuming the LocalPlan (the plan index does not
advance). -/
theorem early_stop_gate (O : PhaseOracle) (info : String) (i : Nat)
    (st : PhaseState) :
    ((phase_iter O true info i st).2.2.head? =
      some (LoopEvent.exec_action
        (create_stop_action ("Early stop: " ++ info))) ∧
     (phase_iter O true info i st).1.action_num = st.action_num) ∧
    (∀ (cfg : DriverConfig) (DO : DriverOracle)
        (initial : List SubtaskInfo) (j : Nat) (t : SubtaskInfo),
      initial.get? st.phase_num = some t →
      ∃ es, (driver_iter cfg DO initial j st).2.2 =
          LoopEvent.phase_task_started t :: LoopEvent.eval_early_stop :: es ∧
        es.countP (fun e => e = LoopEvent.eval_early_stop) = 0) := by
  have hpick : pick_action true info st =
      (create_stop_action ("Early stop: " ++ info), st) := rfl
  have hfinish : ∀ (initial : List SubtaskInfo) (stF : PhaseState)
      (out : PhaseOutcome) (events : List LoopEvent),
      (driver_finish initial stF out events).2.2 = events := by
    intro initial stF out events
    unfold driver_finish
    cases out with
    | returned d =>
      cases d
      · split_ifs <;> rfl
      · rfl
    | next_iteration => split_ifs <;> rfl
    | broke_replan => split_ifs <;> rfl
    | broke_done => split_ifs <;> rfl
    | broke_stop => split_ifs <;> rfl
    | crashed_unbound_done => rfl
    | out_of_fuel => rfl
  refine ⟨⟨?_, ?_⟩, ?_⟩
  · unfold phase_iter
    rw [hpick]
    rcases phase_branch_events O i (create_stop_action ("Early stop: " ++ info))
        (process_action O.describe
          (create_stop_action ("Early stop: " ++ info)) st) with ha | ha <;>
      rw [ha] <;> rfl
  · unfold phase_iter
    rw [hpick]
    rw [phase_branch_action_num]
    rfl
  · intro cfg DO initial j t ht
    refine ⟨(driver_pr cfg DO j st).2.2, ?_, ?_⟩
    · unfold driver_iter
      rw [ht]
      exact hfinish _ _ _ _
    · exact phase_run_no_eval _ _ _ _ _ _

/-- Witness for C3 (amended) at a fired early-stop flag and at the
concrete one-phase driver. -/
theorem early_stop_gate_witness :
    ((phase_iter alignedOracle true "reason" 0 stC1).2.2.head? =
      some (LoopEvent.exec_action
        (create_stop_action ("Early stop: " ++ "reason"))) ∧
     (phase_iter alignedOracle true "reason" 0 stC1).1.action_num =
       stC1.action_num) ∧
    (∃ es, (driver_iter cfgFuel2 alignedDriverOracle [phaseP0] 0 stC1).2.2 =
        LoopEvent.phase_task_started phaseP0 ::
          LoopEvent.eval_early_stop :: es ∧
      es.countP (fun e => e = LoopEvent.eval_early_stop) = 0) :=
  ⟨(early_stop_gate alignedOracle "reason" 0 stC1).1,
   (early_stop_gate alignedOracle "reason" 0 stC1).2 cfgFuel2
     alignedDriverOracle [phaseP0] 0 phaseP0 (by decide)⟩

end CoAct
